import Mathlib

/-!
Verification development for the dex-bot-agent order-placement and
market-decision pipeline.  Definitions are shallow embeddings of the
TypeScript sources under src/: numbers of the source (JS numbers and
BigNumber decimals) are modelled as rationals, in-place mutation is
modelled by returning the final state, and thrown errors are modelled
by explicit error values.
-/

namespace DexBot

/-- Order side, source type `'BUY' | 'SELL'` (src/src/modules/dex/types.ts). -/
inductive Side where
  | BUY
  | SELL
deriving DecidableEq, Repr

/-- MARKET_IDS constant (src/src/modules/dex/types.ts lines 103-107). -/
def MARKET_IDS : List (String × Nat) :=
  [("XPR_XMD", 1), ("XDOGE_XMD", 2), ("XBTC_XMD", 3)]

/-- MAX_ORDER_PERCENTAGE constant of validateOrder
(src/src/modules/dex/index.ts line 924): 0.05. -/
def MAX_ORDER_PERCENTAGE : ℚ := 5 / 100

/-- maxXMDOrder = xmdBalance.amount * MAX_ORDER_PERCENTAGE (line 925). -/
def maxXMDOrder (xmdBalance : ℚ) : ℚ := xmdBalance * MAX_ORDER_PERCENTAGE

/-- maxXPROrder = xprBalance.amount * MAX_ORDER_PERCENTAGE (line 926). -/
def maxXPROrder (xprBalance : ℚ) : ℚ := xprBalance * MAX_ORDER_PERCENTAGE

/-- BUY branch of the quantity clamp in validateOrder (lines 932-942):
if quantity * price exceeds maxXMDOrder, the stored quantity becomes
Math.floor((maxXMDOrder / price) * 0.99). -/
def clampBuyQuantity (q p xmdBal : ℚ) : ℚ :=
  if q * p > maxXMDOrder xmdBal then
    ((⌊maxXMDOrder xmdBal / p * (99 / 100)⌋ : ℤ) : ℚ)
  else q

/-- SELL branch of the quantity clamp in validateOrder (lines 943-958):
if quantity exceeds maxXPROrder the stored quantity becomes
Math.floor(maxXPROrder * 0.99); the source then repeats the same check a
second time on the already-clamped value (lines 953-957). -/
def clampSellQuantity (q xprBal : ℚ) : ℚ :=
  let q1 := if q > maxXPROrder xprBal then
    ((⌊maxXPROrder xprBal * (99 / 100)⌋ : ℤ) : ℚ) else q
  if q1 > maxXPROrder xprBal then
    ((⌊maxXPROrder xprBal * (99 / 100)⌋ : ℤ) : ℚ) else q1

/-- The in-place quantity adjustment of validateOrder, step 5 (lines 928-958). -/
def clampQuantity (side : Side) (q p xmdBal xprBal : ℚ) : ℚ :=
  match side with
  | .BUY => clampBuyQuantity q p xmdBal
  | .SELL => clampSellQuantity q xprBal

/-- Errors thrown by validateOrder (src/src/modules/dex/index.ts lines 903-990).
The missing-balance throw of line 920 is not modelled: the embedding takes
the two balance amounts as arguments, i.e. both balances were found. -/
inductive ValidateErr where
  | invalidMarket
  | priceDeviation
deriving DecidableEq, Repr

/-- MAX_PRICE_DEVIATION constant (line 963): 0.05. -/
def MAX_PRICE_DEVIATION : ℚ := 5 / 100

/-- Result of a call to validateOrder.  `quantity` is the value of
params.quantity after the call: the source mutates params in place, so the
caller observes the clamped quantity even when an error is thrown later. -/
structure ValidateResult where
  quantity : ℚ
  error : Option ValidateErr
deriving DecidableEq, Repr

/-- validateOrder (src/src/modules/dex/index.ts lines 903-990).  Order of
operations in the source: market-symbol lookup in MARKET_IDS (throws), balance
fetch, quantity clamping against the 5 percent caps (mutates params.quantity),
and only then the price-deviation check against the current market price
(throws).  `currentPrice` is the price obtained from getMarketData. -/
def validateOrder (marketSymbol : String) (side : Side)
    (q p xmdBal xprBal currentPrice : ℚ) : ValidateResult :=
  if (MARKET_IDS.lookup marketSymbol).isNone then
    ⟨q, some .invalidMarket⟩
  else
    let q1 := clampQuantity side q p xmdBal xprBal
    if |p - currentPrice| / currentPrice > MAX_PRICE_DEVIATION then
      ⟨q1, some .priceDeviation⟩
    else
      ⟨q1, none⟩

lemma clampBuy_spec (q p xmdBal : ℚ) (hp : 0 < p) (hxmd : 0 ≤ xmdBal)
    (h : q * p > maxXMDOrder xmdBal) :
    clampBuyQuantity q p xmdBal < q ∧
    clampBuyQuantity q p xmdBal * p ≤ maxXMDOrder xmdBal * (99 / 100) := by
  have hM : 0 ≤ maxXMDOrder xmdBal := by
    have : (0 : ℚ) ≤ 5 / 100 := by norm_num
    exact mul_nonneg hxmd this
  have hdivq : maxXMDOrder xmdBal / p < q := (div_lt_iff₀ hp).mpr h
  have hdiv0 : 0 ≤ maxXMDOrder xmdBal / p := div_nonneg hM hp.le
  have hfl : ((⌊maxXMDOrder xmdBal / p * (99 / 100)⌋ : ℤ) : ℚ)
      ≤ maxXMDOrder xmdBal / p * (99 / 100) := Int.floor_le _
  have hscale : maxXMDOrder xmdBal / p * (99 / 100) ≤ maxXMDOrder xmdBal / p := by
    nlinarith
  have hlt : ((⌊maxXMDOrder xmdBal / p * (99 / 100)⌋ : ℤ) : ℚ) < q :=
    lt_of_le_of_lt (hfl.trans hscale) hdivq
  have hmul : maxXMDOrder xmdBal / p * (99 / 100) * p
      = maxXMDOrder xmdBal * (99 / 100) := by
    field_simp
    ring
  constructor
  · simpa [clampBuyQuantity, h] using hlt
  · have := mul_le_mul_of_nonneg_right hfl hp.le
    rw [hmul] at this
    simpa [clampBuyQuantity, h] using this

lemma clampSell_spec (q xprBal : ℚ) (hxpr : 0 ≤ xprBal)
    (h : q > maxXPROrder xprBal) :
    clampSellQuantity q xprBal < q ∧
    clampSellQuantity q xprBal ≤ maxXPROrder xprBal * (99 / 100) := by
  have hX : 0 ≤ maxXPROrder xprBal := by
    have : (0 : ℚ) ≤ 5 / 100 := by norm_num
    exact mul_nonneg hxpr this
  have hfl : ((⌊maxXPROrder xprBal * (99 / 100)⌋ : ℤ) : ℚ)
      ≤ maxXPROrder xprBal * (99 / 100) := Int.floor_le _
  have hscale : maxXPROrder xprBal * (99 / 100) ≤ maxXPROrder xprBal := by
    nlinarith
  have hle : ((⌊maxXPROrder xprBal * (99 / 100)⌋ : ℤ) : ℚ) ≤ maxXPROrder xprBal :=
    hfl.trans hscale
  have hnotagain : ¬ ((⌊maxXPROrder xprBal * (99 / 100)⌋ : ℤ) : ℚ)
      > maxXPROrder xprBal := not_lt.mpr hle
  constructor
  · have : ((⌊maxXPROrder xprBal * (99 / 100)⌋ : ℤ) : ℚ) < q :=
      lt_of_le_of_lt hle h
    simpa [clampSellQuantity, h, hnotagain] using this
  · simpa [clampSellQuantity, h, hnotagain] using hfl

lemma validateOrder_quantity_eq_clamp (side : Side)
    (q p xmdBal xprBal currentPrice : ℚ) :
    (validateOrder "XPR_XMD" side q p xmdBal xprBal currentPrice).quantity
      = clampQuantity side q p xmdBal xprBal := by
  unfold validateOrder
  norm_num [MARKET_IDS, List.lookup]
  split <;> rfl

/-- Claim C1: for a BUY whose notional exceeds 5 percent of the XMD balance, and for
a SELL whose quantity exceeds 5 percent of the XPR balance, validateOrder
stores a quantity strictly below the input whose notional is at most
cap * 0.99; with XMD balance 1000 and a BUY of 20000 at price 0.05 the
stored quantity is 990. -/
theorem validateOrder_clamps_oversized_orders (side : Side)
    (q p xmdBal xprBal currentPrice : ℚ)
    (hp : 0 < p) (hxmd : 0 ≤ xmdBal) (hxpr : 0 ≤ xprBal) :
    (side = .BUY → q * p > maxXMDOrder xmdBal →
      (validateOrder "XPR_XMD" side q p xmdBal xprBal currentPrice).quantity < q ∧
      (validateOrder "XPR_XMD" side q p xmdBal xprBal currentPrice).quantity * p
        ≤ maxXMDOrder xmdBal * (99 / 100)) ∧
    (side = .SELL → q > maxXPROrder xprBal →
      (validateOrder "XPR_XMD" side q p xmdBal xprBal currentPrice).quantity < q ∧
      (validateOrder "XPR_XMD" side q p xmdBal xprBal currentPrice).quantity
        ≤ maxXPROrder xprBal * (99 / 100)) ∧
    (validateOrder "XPR_XMD" .BUY 20000 (5 / 100) 1000 xprBal currentPrice).quantity
      = 990 := by
  refine ⟨?_, ?_, ?_⟩
  · intro hside hnotional
    rw [validateOrder_quantity_eq_clamp, hside]
    exact clampBuy_spec q p xmdBal hp hxmd hnotional
  · intro hside hqty
    rw [validateOrder_quantity_eq_clamp, hside]
    exact clampSell_spec q xprBal hxpr hqty
  · rw [validateOrder_quantity_eq_clamp]
    show clampBuyQuantity 20000 (5 / 100) 1000 = 990
    unfold clampBuyQuantity maxXMDOrder MAX_ORDER_PERCENTAGE
    norm_num

/-- Witness for C1: the clamp theorem applied at the end-to-end scenario of the
spec (XMD balance 1000, BUY 20000 at 0.05). -/
theorem validateOrder_clamps_oversized_orders_witness :
    (validateOrder "XPR_XMD" .BUY 20000 (5 / 100) 1000 5000 (5 / 100)).quantity
        < 20000 ∧
    (validateOrder "XPR_XMD" .BUY 20000 (5 / 100) 1000 5000 (5 / 100)).quantity
        * (5 / 100) ≤ maxXMDOrder 1000 * (99 / 100) :=
  (validateOrder_clamps_oversized_orders .BUY 20000 (5 / 100) 1000 5000 (5 / 100)
      (by norm_num) (by norm_num) (by norm_num)).1 rfl
    (by norm_num [maxXMDOrder, MAX_ORDER_PERCENTAGE])

/-- Claim C2, amended: whenever the proposed price deviates from the current market
price by more than MAX_PRICE_DEVIATION, validateOrder rejects the order with
the price-deviation error; the stored quantity at that point is the clamped
quantity, because the cap clamp (lines 928-958) runs before the deviation
check (lines 960-971). -/
theorem validateOrder_rejects_price_deviation (marketSymbol : String)
    (side : Side) (q p xmdBal xprBal currentPrice : ℚ)
    (hmkt : (MARKET_IDS.lookup marketSymbol).isSome = true)
    (hdev : |p - currentPrice| / currentPrice > MAX_PRICE_DEVIATION) :
    (validateOrder marketSymbol side q p xmdBal xprBal currentPrice).error
      = some .priceDeviation ∧
    (validateOrder marketSymbol side q p xmdBal xprBal currentPrice).quantity
      = clampQuantity side q p xmdBal xprBal := by
  have hnone : (MARKET_IDS.lookup marketSymbol).isNone = false := by
    cases hcase : MARKET_IDS.lookup marketSymbol with
    | none => rw [hcase] at hmkt; simp at hmkt
    | some v => simp [hcase]
  unfold validateOrder
  rw [hnone]
  simp [hdev]

/-- Witness for C2: deviation guard applied at a BUY of 20000 at price 0.05
against current price 0.10 (deviation 50 percent). -/
theorem validateOrder_rejects_price_deviation_witness :
    (validateOrder "XPR_XMD" .BUY 20000 (5 / 100) 1000 5000 (1 / 10)).error
        = some .priceDeviation ∧
    (validateOrder "XPR_XMD" .BUY 20000 (5 / 100) 1000 5000 (1 / 10)).quantity
        = clampQuantity .BUY 20000 (5 / 100) 1000 5000 :=
  validateOrder_rejects_price_deviation "XPR_XMD" .BUY 20000 (5 / 100) 1000 5000
    (1 / 10) (by norm_num [MARKET_IDS, List.lookup])
    (by
      have habs : |(5 / 100 : ℚ) - 1 / 10| = 1 / 20 := by norm_num
      rw [habs]
      norm_num [MAX_PRICE_DEVIATION])

/-- Counterexample for C2: the claim states that when the price-deviation error is
thrown no clamping happens and the quantity is left unchanged; but on a BUY of
20000 at 0.05 with XMD balance 1000 and current price 0.10 the error is thrown
while the stored quantity has already been clamped from 20000 to 990. -/
theorem validateOrder_clamps_before_deviation_throw :
    (validateOrder "XPR_XMD" .BUY 20000 (5 / 100) 1000 5000 (1 / 10)).error
        = some .priceDeviation ∧
    (validateOrder "XPR_XMD" .BUY 20000 (5 / 100) 1000 5000 (1 / 10)).quantity
        = 990 ∧
    (990 : ℚ) ≠ 20000 := by
  have habs2 : |(1 / 20 : ℚ)| = 1 / 20 := abs_of_nonneg (by norm_num)
  refine ⟨?_, ?_, by norm_num⟩
  · unfold validateOrder
    norm_num [MARKET_IDS, List.lookup, MAX_PRICE_DEVIATION, habs2]
  · unfold validateOrder
    norm_num [MARKET_IDS, List.lookup, MAX_PRICE_DEVIATION, habs2, clampQuantity,
      clampBuyQuantity, maxXMDOrder, MAX_ORDER_PERCENTAGE]

/-! ## Order serialization (C3)

placeOrder (src/src/modules/dex/index.ts lines 671-731) serializes the order
with BigNumber arithmetic.  getMarketTokens (lines 654-669) fixes
bidToken = XPR with precision 4 and multiplier 10000, and askToken = XMD with
precision 6 and multiplier 1000000. -/

/-- BigNumber ROUND_DOWN: rounding towards zero (used for the price leg in
placeOrder, line 707). -/
def roundTowardZero (x : ℚ) : ℤ := if 0 ≤ x then ⌊x⌋ else ⌈x⌉

/-- BigNumber default ROUND_HALF_UP: round half away from zero (used by
integerValue() with no argument in placeOrderOnChain,
src/src/core/agent.ts lines 258-266). -/
def roundHalfUp (x : ℚ) : ℤ := if 0 ≤ x then ⌊x + 1 / 2⌋ else ⌈x - 1 / 2⌉

/-- bidToken.multiplier for XPR_XMD: 10000 (precision 4). -/
def bidTokenMultiplier : ℚ := 10000

/-- askToken.multiplier for XPR_XMD: 1000000 (precision 6). -/
def askTokenMultiplier : ℚ := 1000000

/-- Quantity of the placeorder action in placeOrder (line 706):
bnQuantity.times(bidToken.multiplier).toString() — the product is emitted as
is, with no integer rounding. -/
def placeOrderChainQuantity (q : ℚ) : ℚ := q * bidTokenMultiplier

/-- Price of the placeorder action in placeOrder (line 707):
bnPrice.times(askToken.multiplier).integerValue(BigNumber.ROUND_DOWN). -/
def placeOrderChainPrice (p : ℚ) : ℤ := roundTowardZero (p * askTokenMultiplier)

/-- maxQuantity cap of placeOrderOnChain (src/src/core/agent.ts line 244). -/
def maxQuantity : ℚ := 5

/-- safeQuantity = Math.min(orderData.quantity, maxQuantity) (line 245). -/
def safeQuantity (q : ℚ) : ℚ := min q maxQuantity

/-- quantityNormalized of placeOrderOnChain (lines 258-260): the capped
quantity scaled by 10^precision and rounded with integerValue(), i.e. half
away from zero. -/
def quantityNormalized (prec : ℕ) (q : ℚ) : ℤ :=
  roundHalfUp (safeQuantity q * 10 ^ prec)

/-- priceNormalized of placeOrderOnChain (lines 262-266): price scaled by
10^bidToken.precision and rounded with integerValue(). -/
def priceNormalized (bidPrec : ℕ) (p : ℚ) : ℤ :=
  roundHalfUp (p * 10 ^ bidPrec)

/-- Claim C3, amended: in placeOrder the chain price is floor(price * 10^6), computed
with arbitrary-precision decimals, and dividing back reproduces the price
within one precision step erring downward; the chain quantity, however, is
scaled exactly with no integer rounding, so its round trip is exact and the
emitted value need not be an integer. -/
theorem placeOrder_scaling (p q : ℚ) (hp : 0 ≤ p) :
    (placeOrderChainPrice p : ℚ) = ((⌊p * 10 ^ 6⌋ : ℤ) : ℚ) ∧
    (placeOrderChainPrice p : ℚ) / 10 ^ 6 ≤ p ∧
    p - (placeOrderChainPrice p : ℚ) / 10 ^ 6 < 1 / 10 ^ 6 ∧
    placeOrderChainQuantity q / 10 ^ 4 = q := by
  have hp6 : (0 : ℚ) ≤ p * 1000000 := by positivity
  have heq : (placeOrderChainPrice p : ℚ) = ((⌊p * 1000000⌋ : ℤ) : ℚ) := by
    unfold placeOrderChainPrice roundTowardZero askTokenMultiplier
    rw [if_pos hp6]
  have hfl : ((⌊p * 1000000⌋ : ℤ) : ℚ) ≤ p * 1000000 := Int.floor_le _
  have hfl2 : p * 1000000 < ((⌊p * 1000000⌋ : ℤ) : ℚ) + 1 := Int.lt_floor_add_one _
  refine ⟨by rw [heq]; norm_num, ?_, ?_, ?_⟩
  · rw [heq]
    rw [div_le_iff₀ (by norm_num : (0 : ℚ) < 10 ^ 6)]
    calc ((⌊p * 1000000⌋ : ℤ) : ℚ) ≤ p * 1000000 := hfl
    _ = p * 10 ^ 6 := by norm_num
  · rw [heq]
    have h1 : p * 1000000 - ((⌊p * 1000000⌋ : ℤ) : ℚ) < 1 := by linarith
    have h2 : (p * 1000000 - ((⌊p * 1000000⌋ : ℤ) : ℚ)) / 10 ^ 6 < 1 / 10 ^ 6 := by
      apply div_lt_div_of_pos_right h1
      norm_num
    calc p - ((⌊p * 1000000⌋ : ℤ) : ℚ) / 10 ^ 6
        = (p * 1000000 - ((⌊p * 1000000⌋ : ℤ) : ℚ)) / 10 ^ 6 := by ring
    _ < 1 / 10 ^ 6 := h2
  · unfold placeOrderChainQuantity bidTokenMultiplier
    ring

/-- Witness for C3: the scaling theorem applied at price 1/3 and quantity 7:
the chain price is 333333 and the quantity round trip is exact. -/
theorem placeOrder_scaling_witness :
    (placeOrderChainPrice (1 / 3) : ℚ) = ((⌊(1 / 3 : ℚ) * 10 ^ 6⌋ : ℤ) : ℚ) ∧
    (placeOrderChainPrice (1 / 3) : ℚ) / 10 ^ 6 ≤ (1 / 3 : ℚ) ∧
    (1 / 3 : ℚ) - (placeOrderChainPrice (1 / 3) : ℚ) / 10 ^ 6 < 1 / 10 ^ 6 ∧
    placeOrderChainQuantity 7 / 10 ^ 4 = 7 :=
  placeOrder_scaling (1 / 3) 7 (by norm_num)

/-- Counterexample for C3: at quantity 0.00005 the placeorder action carries
quantity 0.5 — not an integer, and not floor(0.00005 * 10^4) = 0; on the
placeOrderOnChain path the same value is rounded half up to 1, erring upward
rather than downward. -/
theorem placeOrder_quantity_not_floored :
    placeOrderChainQuantity (1 / 20000) = 1 / 2 ∧
    placeOrderChainQuantity (1 / 20000)
      ≠ ((⌊(1 / 20000 : ℚ) * 10 ^ 4⌋ : ℤ) : ℚ) ∧
    quantityNormalized 4 (1 / 20000) = 1 ∧
    (⌊(1 / 20000 : ℚ) * 10 ^ 4⌋ : ℤ) = 0 := by
  have hmin : min (1 / 20000 : ℚ) 5 = 1 / 20000 := min_eq_left (by norm_num)
  refine ⟨?_, ?_, ?_, ?_⟩
  · norm_num [placeOrderChainQuantity, bidTokenMultiplier]
  · norm_num [placeOrderChainQuantity, bidTokenMultiplier]
  · norm_num [quantityNormalized, safeQuantity, maxQuantity, roundHalfUp, hmin]
  · norm_num

/-! ## Decision grammar of handleDEXOperation (C4, C10)

handleDEXOperation (src/src/interfaces/ai.interface.ts lines 766-814)
validates the advisor response against
  /^USE DEX (placeOrder XPR_XMD (buy|sell) (market|limit) \d+|skip)$/i
and throws the invalid-format error when the test fails.  Strings are
embedded through their character lists; the helper functions below are the
ASCII semantics of the JS operations used by the source. -/

/-- ASCII lowering of one character (JS toLowerCase and the i regex flag). -/
def lowerChar (c : Char) : Char :=
  if 65 ≤ c.toNat ∧ c.toNat ≤ 90 then Char.ofNat (c.toNat + 32) else c

/-- ASCII raising of one character (JS toUpperCase). -/
def upperChar (c : Char) : Char :=
  if 97 ≤ c.toNat ∧ c.toNat ≤ 122 then Char.ofNat (c.toNat - 32) else c

/-- ASCII digit test (the regex token \d). -/
def isDigitChar (c : Char) : Bool :=
  Nat.ble 48 c.toNat && Nat.ble c.toNat 57

/-- JS String.prototype.split(" "): split at every single space; leading,
trailing and doubled spaces yield empty words, and the empty string yields
one empty word. -/
def splitSpace (cs : List Char) : List (List Char) :=
  match cs with
  | [] => [[]]
  | c :: rest =>
    let r := splitSpace rest
    if c = ' ' then [] :: r
    else
      match r with
      | w :: ws => (c :: w) :: ws
      | [] => [[c]]

/-- parseInt on the digit-only words admitted by the pattern. -/
def parseDigits (cs : List Char) : ℕ :=
  cs.foldl (fun n c => 10 * n + (c.toNat - 48)) 0

/-- The decision pattern of line 785, with the case-insensitive flag:
the lowered input must be exactly the three words use dex skip, or the seven
words use dex placeorder xpr_xmd side type digits with side in buy or sell
and type in market or limit.  This token matching coincides with the regex
because every literal token is space-free and the spaces in the pattern are
single. -/
def matchesDecisionPattern (s : String) : Bool :=
  match splitSpace (s.data.map lowerChar) with
  | [u, d, k] => u == "use".data && d == "dex".data && k == "skip".data
  | [u, d, po, pr, sd, tp, qn] =>
      u == "use".data && d == "dex".data && po == "placeorder".data &&
      pr == "xpr_xmd".data &&
      (sd == "buy".data || sd == "sell".data) &&
      (tp == "market".data || tp == "limit".data) &&
      (!qn.isEmpty) && qn.all isDigitChar
  | _ => false

/-- The grammar exactly as the claim words it, with the casing as written:
USE DEX placeOrder XPR_XMD, side buy or sell, type market or limit, an
integer; or USE DEX skip.  This definition follows the claim text, to be
compared with the case-insensitive pattern the implementation uses. -/
def matchesClaimGrammar (s : String) : Bool :=
  match splitSpace s.data with
  | [u, d, k] => u == "USE".data && d == "DEX".data && k == "skip".data
  | [u, d, po, pr, sd, tp, qn] =>
      u == "USE".data && d == "DEX".data && po == "placeOrder".data &&
      pr == "XPR_XMD".data &&
      (sd == "buy".data || sd == "sell".data) &&
      (tp == "market".data || tp == "limit".data) &&
      (!qn.isEmpty) && qn.all isDigitChar
  | _ => false

/-- Outcome of the decision-handling block of handleDEXOperation
(lines 784-814).  `runtimeTypeError` is the TypeError the source raises when
it destructures a short word list and calls toUpperCase() on undefined. -/
inductive DecisionOutcome where
  | invalidFormat
  | skipped
  | executed (side otype : String) (qty : ℕ)
  | runtimeTypeError
deriving DecidableEq, Repr

/-- Decision handling of handleDEXOperation (lines 784-814): test the
pattern, throwing the invalid-format error on failure; compare the response
with the exact string USE DEX skip by case-sensitive equality; otherwise
destructure response.split(" ") as a seven-word order, where for a
pattern-passing response of fewer words the side element is undefined and
side.toUpperCase() raises a TypeError. -/
def handleDEXDecision (decision : String) : DecisionOutcome :=
  if !matchesDecisionPattern decision then .invalidFormat
  else if decision.data = "USE DEX skip".data then .skipped
  else
    match (splitSpace decision.data)[4]?, (splitSpace decision.data)[5]?,
        (splitSpace decision.data)[6]? with
    | some sd, some tp, some qn =>
        .executed ⟨sd.map upperChar⟩ ⟨tp.map upperChar⟩ (parseDigits qn)
    | _, _, _ => .runtimeTypeError

/-- Claim C4, amended: every response that fails the (case-insensitive) decision
pattern is rejected with the invalid-format error and no order is executed;
in particular the malformed responses named by the spec are rejected. -/
theorem handleDEX_rejects_nonmatching :
    (∀ s, matchesDecisionPattern s = false →
      handleDEXDecision s = .invalidFormat) ∧
    handleDEXDecision "USE DEX buy now" = .invalidFormat ∧
    handleDEXDecision "" = .invalidFormat ∧
    handleDEXDecision "USE DEX placeOrder XPR_XMD buy limit 100 now"
      = .invalidFormat ∧
    handleDEXDecision "USE DEX placeOrder XPR_XMD hold limit 100"
      = .invalidFormat := by
  have hmain : ∀ s, matchesDecisionPattern s = false →
      handleDEXDecision s = .invalidFormat := by
    intro s h
    simp [handleDEXDecision, h]
  exact ⟨hmain, hmain _ (by decide), hmain _ (by decide), hmain _ (by decide),
    hmain _ (by decide)⟩

/-- Witness for C4: the rejection theorem applied to a concrete malformed
response. -/
theorem handleDEX_rejects_nonmatching_witness :
    handleDEXDecision "USE DEX skip now" = DecisionOutcome.invalidFormat :=
  handleDEX_rejects_nonmatching.1 "USE DEX skip now" (by decide)

/-- Counterexample for C4: the response written entirely in lower case does not
match the grammar as the claim words it (the claim writes placeOrder and
XPR_XMD with that exact casing), yet the handler accepts it through the
case-insensitive pattern and executes an order rather than throwing. -/
theorem handleDEX_lowercase_order_executes :
    matchesClaimGrammar "use dex placeorder xpr_xmd buy limit 5" = false ∧
    handleDEXDecision "use dex placeorder xpr_xmd buy limit 5"
      = .executed "BUY" "LIMIT" 5 := by
  constructor
  · decide
  · decide

/-- Claim C10: the response use dex skip (lower case) is accepted by the
case-insensitive pattern, fails the case-sensitive equality with
USE DEX skip, and is then destructured as a seven-word order whose side
element is missing, so the handler raises a runtime TypeError instead of
skipping; the exactly-cased reply is skipped. -/
theorem handleDEX_skip_casing_crashes :
    matchesDecisionPattern "use dex skip" = true ∧
    "use dex skip" ≠ "USE DEX skip" ∧
    handleDEXDecision "use dex skip" = .runtimeTypeError ∧
    handleDEXDecision "USE DEX skip" = .skipped := by
  refine ⟨by decide, ?_, by decide, by decide⟩
  intro h
  have : ("use dex skip").data = ("USE DEX skip").data := by rw [h]
  exact absurd this (by decide)

/-! ## OHLCV aggregation (C6) and market snapshot (C5) -/

/-- One raw candle of the OHLCV endpoint (OHLCVDataPoint,
src/src/modules/dex/types.ts).  The source field name behind `opn` is open,
which Lean reserves.  A null or NaN volume is modelled as none: that is
exactly the set of candles the filter of getOHLCV removes. -/
structure OHLCVDataPoint where
  opn : ℚ
  high : ℚ
  low : ℚ
  close : ℚ
  volume : Option ℚ
  volume_bid : Option ℚ
  time : ℕ
deriving DecidableEq, Repr

/-- Candle after the mapping of getOHLCV (src/src/modules/dex/index.ts lines
291-299), with volume defaulted to 0. -/
structure OHLCVCandle where
  opn : ℚ
  high : ℚ
  low : ℚ
  close : ℚ
  volume : ℚ
  volume_bid : Option ℚ
deriving DecidableEq, Repr

/-- The filter and map of getOHLCV lines 287-299: keep candles whose volume
is neither null nor NaN. -/
def toCandle (c : OHLCVDataPoint) : OHLCVCandle :=
  ⟨c.opn, c.high, c.low, c.close, c.volume.getD 0, c.volume_bid⟩

def validCandles (cs : List OHLCVDataPoint) : List OHLCVCandle :=
  (cs.filter fun c => c.volume.isSome).map toCandle

/-- Aggregated OHLCV record (src/src/modules/dex/types.ts). -/
structure OHLCV where
  opn : ℚ
  high : ℚ
  low : ℚ
  close : ℚ
  volume : ℚ
  price_change : ℚ
  volume_weighted_price : ℚ
deriving DecidableEq, Repr

/-- The all-zero OHLCV record returned by the catch branch of getOHLCV
(lines 320-331). -/
def zeroOHLCV : OHLCV := ⟨0, 0, 0, 0, 0, 0, 0⟩

/-- volume_weighted_price of line 312: sum of volume_bid over sum of volume.
The JS expression x / y || 0 maps NaN (0 divided by 0) to 0, which rational
division by zero also yields; the case of a zero volume sum with a nonzero
bid sum would be Infinity in JS and 0 here, and no claim touches it. -/
def vwpOf (valid : List OHLCVCandle) : ℚ :=
  (valid.foldl (fun s c => s + c.volume_bid.getD 0) 0) /
  (valid.foldl (fun s c => s + c.volume) 0)

/-- The try block of getOHLCV (lines 286-318): filter the candles, and throw
when none remain; otherwise aggregate: open of the first candle, max of the
highs, min of the lows, close of the last candle, sum of the volumes, and
the relative change from first open to last close times 100. -/
def getOHLCVBody (cs : List OHLCVDataPoint) : Except String OHLCV :=
  match (validCandles cs).head?, (validCandles cs).getLast? with
  | some first, some lastC =>
    .ok { opn := first.opn
        , high := ((validCandles cs).map OHLCVCandle.high).foldl max first.high
        , low := ((validCandles cs).map OHLCVCandle.low).foldl min first.low
        , close := lastC.close
        , volume := (validCandles cs).foldl (fun s c => s + c.volume) 0
        , price_change := ((lastC.close - first.opn) / first.opn) * 100
        , volume_weighted_price := vwpOf (validCandles cs) }
  | _, _ => .error "No valid candles found in response"

/-- getOHLCV with its catch branch (lines 264-332): any thrown error is
swallowed and the all-zero record is returned. -/
def getOHLCV (cs : List OHLCVDataPoint) : OHLCV :=
  match getOHLCVBody cs with
  | .ok v => v
  | .error _ => zeroOHLCV

lemma le_foldl_max (l : List ℚ) (a : ℚ) : a ≤ l.foldl max a := by
  induction l generalizing a with
  | nil => simp
  | cons x xs ih =>
    simp only [List.foldl_cons]
    exact le_trans (le_max_left a x) (ih (max a x))

lemma mem_le_foldl_max (l : List ℚ) (a x : ℚ) (hx : x ∈ l) :
    x ≤ l.foldl max a := by
  induction l generalizing a with
  | nil => cases hx
  | cons y ys ih =>
    simp only [List.foldl_cons]
    rcases List.mem_cons.mp hx with h | h
    · subst h
      exact le_trans (le_max_right a x) (le_foldl_max ys (max a x))
    · exact ih (max a y) h

lemma foldl_max_mem (l : List ℚ) (a : ℚ) : l.foldl max a ∈ a :: l := by
  induction l generalizing a with
  | nil => simp
  | cons x xs ih =>
    simp only [List.foldl_cons]
    rcases List.mem_cons.mp (ih (max a x)) with h | h
    · rcases max_choice a x with hm | hm
      · rw [h, hm]
        exact List.mem_cons_self _ _
      · rw [h, hm]
        exact List.mem_cons_of_mem _ (List.mem_cons_self _ _)
    · exact List.mem_cons_of_mem _ (List.mem_cons_of_mem _ h)

lemma foldl_min_le (l : List ℚ) (a : ℚ) : l.foldl min a ≤ a := by
  induction l generalizing a with
  | nil => simp
  | cons x xs ih =>
    simp only [List.foldl_cons]
    exact le_trans (ih (min a x)) (min_le_left a x)

lemma foldl_min_le_mem (l : List ℚ) (a x : ℚ) (hx : x ∈ l) :
    l.foldl min a ≤ x := by
  induction l generalizing a with
  | nil => cases hx
  | cons y ys ih =>
    simp only [List.foldl_cons]
    rcases List.mem_cons.mp hx with h | h
    · subst h
      exact le_trans (foldl_min_le ys (min a x)) (min_le_right a x)
    · exact ih (min a y) h

lemma foldl_min_mem (l : List ℚ) (a : ℚ) : l.foldl min a ∈ a :: l := by
  induction l generalizing a with
  | nil => simp
  | cons x xs ih =>
    simp only [List.foldl_cons]
    rcases List.mem_cons.mp (ih (min a x)) with h | h
    · rcases min_choice a x with hm | hm
      · rw [h, hm]
        exact List.mem_cons_self _ _
      · rw [h, hm]
        exact List.mem_cons_of_mem _ (List.mem_cons_self _ _)
    · exact List.mem_cons_of_mem _ (List.mem_cons_of_mem _ h)

lemma foldl_add_volume (l : List OHLCVCandle) (init : ℚ) :
    l.foldl (fun s c => s + c.volume) init
      = init + (l.map OHLCVCandle.volume).sum := by
  induction l generalizing init with
  | nil => simp
  | cons x xs ih =>
    simp only [List.foldl_cons, List.map_cons, List.sum_cons]
    rw [ih]
    ring

/-- Claim C6, amended: with at least one valid candle the aggregation returns open
of the first valid candle, the max and min of the highs and lows, close of
the last valid candle, the sum of the volumes, and
price change = (close - open) / open * 100; with zero valid candles an
internal error is raised but caught by getOHLCV itself, which returns the
all-zero record instead of failing. -/
theorem getOHLCV_aggregation (cs : List OHLCVDataPoint) :
    (∀ first lastC, (validCandles cs).head? = some first →
      (validCandles cs).getLast? = some lastC →
      ∃ v, getOHLCVBody cs = .ok v ∧
        v.opn = first.opn ∧
        v.close = lastC.close ∧
        v.high ∈ (validCandles cs).map OHLCVCandle.high ∧
        (∀ x ∈ (validCandles cs).map OHLCVCandle.high, x ≤ v.high) ∧
        v.low ∈ (validCandles cs).map OHLCVCandle.low ∧
        (∀ x ∈ (validCandles cs).map OHLCVCandle.low, v.low ≤ x) ∧
        v.volume = ((validCandles cs).map OHLCVCandle.volume).sum ∧
        v.price_change = ((v.close - v.opn) / v.opn) * 100) ∧
    (validCandles cs = [] →
      getOHLCVBody cs = .error "No valid candles found in response" ∧
      getOHLCV cs = zeroOHLCV) := by
  constructor
  · intro first lastC h1 h2
    obtain ⟨tail, htail⟩ : ∃ t, validCandles cs = first :: t := by
      cases hvc : validCandles cs with
      | nil => rw [hvc] at h1; cases h1
      | cons a t =>
        rw [hvc] at h1
        simp only [List.head?_cons, Option.some.injEq] at h1
        exact ⟨t, by rw [h1]⟩
    refine ⟨_, by unfold getOHLCVBody; rw [h1, h2], rfl, rfl, ?_, ?_, ?_, ?_, ?_, rfl⟩
    · show ((validCandles cs).map OHLCVCandle.high).foldl max first.high
        ∈ (validCandles cs).map OHLCVCandle.high
      rw [htail]
      simp only [List.map_cons, List.foldl_cons, max_self]
      exact foldl_max_mem _ _
    · intro x hx
      exact mem_le_foldl_max _ _ _ hx
    · show ((validCandles cs).map OHLCVCandle.low).foldl min first.low
        ∈ (validCandles cs).map OHLCVCandle.low
      rw [htail]
      simp only [List.map_cons, List.foldl_cons, min_self]
      exact foldl_min_mem _ _
    · intro x hx
      exact foldl_min_le_mem _ _ _ hx
    · show (validCandles cs).foldl (fun s c => s + c.volume) 0
        = ((validCandles cs).map OHLCVCandle.volume).sum
      rw [foldl_add_volume]
      ring
  · intro hempty
    have hbody : getOHLCVBody cs = .error "No valid candles found in response" := by
      unfold getOHLCVBody
      rw [hempty]
      rfl
    exact ⟨hbody, by unfold getOHLCV; rw [hbody]⟩

/-- A two-candle sample input for the aggregation witness. -/
def candleA : OHLCVDataPoint := ⟨10, 14, 9, 12, some 100, some 40, 0⟩

/-- Second sample candle; a null-volume candle sits between the two valid
ones and is filtered out. -/
def candleB : OHLCVDataPoint := ⟨12, 15, 11, 13, some 200, some 90, 1⟩

/-- A candle with null volume, removed by the filter. -/
def candleBad : OHLCVDataPoint := ⟨0, 99, 0, 0, none, none, 2⟩

/-- Witness for C6: the aggregation theorem applied to the concrete input
[candleA, candleBad, candleB]. -/
theorem getOHLCV_aggregation_witness :
    ∃ v, getOHLCVBody [candleA, candleBad, candleB] = .ok v ∧
      v.opn = (toCandle candleA).opn ∧
      v.close = (toCandle candleB).close ∧
      v.high ∈ (validCandles [candleA, candleBad, candleB]).map OHLCVCandle.high ∧
      (∀ x ∈ (validCandles [candleA, candleBad, candleB]).map OHLCVCandle.high,
        x ≤ v.high) ∧
      v.low ∈ (validCandles [candleA, candleBad, candleB]).map OHLCVCandle.low ∧
      (∀ x ∈ (validCandles [candleA, candleBad, candleB]).map OHLCVCandle.low,
        v.low ≤ x) ∧
      v.volume
        = ((validCandles [candleA, candleBad, candleB]).map OHLCVCandle.volume).sum ∧
      v.price_change = ((v.close - v.opn) / v.opn) * 100 :=
  (getOHLCV_aggregation [candleA, candleBad, candleB]).1
    (toCandle candleA) (toCandle candleB) rfl rfl

/-- Counterexample for C6: with zero valid candles getOHLCV does not fail with an
insufficient-data error: the internal throw is caught and the all-zero OHLCV
record is returned, both for an empty response and for a response whose only
candle has null volume. -/
theorem getOHLCV_swallows_insufficient_data :
    getOHLCVBody ([] : List OHLCVDataPoint)
        = .error "No valid candles found in response" ∧
    getOHLCV ([] : List OHLCVDataPoint) = zeroOHLCV ∧
    getOHLCV [candleBad] = zeroOHLCV := by
  exact ⟨rfl, rfl, rfl⟩

/-! ## Market snapshot construction (C5) -/

/-- An order-book level after normalization
(src/src/modules/dex/index.ts lines 365-377). -/
structure OrderBookLevel where
  price : ℚ
  size : ℚ
deriving DecidableEq, Repr

structure OrderBookDepth where
  asks : List OrderBookLevel
  bids : List OrderBookLevel
deriving DecidableEq, Repr

/-- A recent trade after mapping (lines 423-428). -/
structure RecentTrade where
  price : ℚ
  quantity : ℚ
  side : String
deriving DecidableEq, Repr

/-- MarketData (src/src/modules/dex/types.ts); the timestamp field is wall
clock time and is not modelled. -/
structure MarketData where
  pair : String
  price : ℚ
  priceChange : ℚ
  volume : ℚ
  depth : OrderBookDepth
  ohlcv : OHLCV
  trades : List RecentTrade
deriving DecidableEq, Repr

/-- TRUSTED_MARKETS (src/src/modules/dex/index.ts line 144), the value of
AGENT_CONFIG.MARKETS.SUPPORTED whose default is the single pair XPR_XMD.
The field is declared and never read anywhere in the module. -/
def TRUSTED_MARKETS : List String := ["XPR_XMD"]

/-- Number(x.toFixed(2)) of line 222: rounding to two decimals, modelled half
away from zero; the binary corner cases of JS toFixed do not matter to any
claim. -/
def round2 (x : ℚ) : ℚ := ((roundHalfUp (x * 100) : ℤ) : ℚ) / 100

/-- getMarketData (src/src/modules/dex/index.ts lines 198-250), as a function
of the pair and the three successful upstream responses.  The body uses the
first candle of the 1D OHLCV response; the truthiness guard of line 221 makes
priceChange 0 when either close or open is 0.  No validation of `pair`
happens anywhere: in particular TRUSTED_MARKETS is never consulted. -/
def getMarketData (pair : String) (depth : OrderBookDepth)
    (candles : List OHLCVDataPoint) (trades : List RecentTrade) :
    Option MarketData :=
  match candles[0]? with
  | none => none
  | some latest =>
    let priceChange : ℚ :=
      if latest.close ≠ 0 ∧ latest.opn ≠ 0 then
        round2 (((latest.close - latest.opn) / latest.opn) * 100)
      else 0
    some { pair := pair
         , price := latest.close
         , priceChange := priceChange
         , volume := latest.volume.getD 0
         , depth := depth
         , ohlcv := { opn := latest.opn, high := latest.high, low := latest.low
                    , close := latest.close, volume := latest.volume.getD 0
                    , price_change := priceChange
                    , volume_weighted_price := 0 }
         , trades := trades }

/-- Sample upstream order book for the C5 evaluation. -/
def sampleDepth : OrderBookDepth := ⟨[⟨2 / 10, 100⟩], [⟨1 / 10, 100⟩]⟩

/-- Sample upstream candle for the C5 evaluation. -/
def sampleCandle : OHLCVDataPoint := ⟨1 / 10, 1 / 5, 1 / 20, 3 / 20, some 1000, some 500, 0⟩

/-- Claim C5: getMarketData performs no allow-list validation.  For the pair
FAKE_XMD, which is not in TRUSTED_MARKETS, the function still builds and
returns the market snapshot from the upstream responses instead of failing
with an untrusted-market error before any upstream call. -/
theorem getMarketData_ignores_trusted_markets :
    "FAKE_XMD" ∉ TRUSTED_MARKETS ∧
    ∃ md, getMarketData "FAKE_XMD" sampleDepth [sampleCandle] [] = some md ∧
      md.pair = "FAKE_XMD" := by
  constructor
  · intro h
    simp only [TRUSTED_MARKETS, List.mem_singleton] at h
    exact absurd (congrArg String.data h) (by decide)
  · exact ⟨_, rfl, rfl⟩

/-! ## Transaction submission parameters (C7) -/

/-- The tapos options passed to api.transact. -/
structure TransactConfig where
  blocksBehind : ℕ
  expireSeconds : ℕ
deriving DecidableEq, Repr

/-- ProtonClient.transact (src/src/core/proton.ts lines 39-44) passes
blocksBehind 300 and expireSeconds 3000. -/
def protonClientTransactConfig : TransactConfig := ⟨300, 3000⟩

/-- placeOrderOnChain (src/src/core/agent.ts lines 314-320) passes
blocksBehind 3 and expireSeconds 30. -/
def placeOrderOnChainTransactConfig : TransactConfig := ⟨3, 30⟩

/-- DexModule.placeOrder (src/src/modules/dex/index.ts line 724) submits via
this.proton.transact, hence with the ProtonClient parameters. -/
def dexPlaceOrderTransactConfig : TransactConfig := protonClientTransactConfig

/-- Claim C7, amended: each submission path passes fixed parameters, but they are
not uniform across submissions: placeOrderOnChain uses 3 blocks behind with
a 30 second expiry, while DexModule.placeOrder, submitting through
ProtonClient.transact, uses 300 blocks behind with a 3000 second expiry. -/
theorem transact_configs_fixed_but_not_uniform :
    placeOrderOnChainTransactConfig = ⟨3, 30⟩ ∧
    dexPlaceOrderTransactConfig = ⟨300, 3000⟩ ∧
    dexPlaceOrderTransactConfig ≠ placeOrderOnChainTransactConfig := by
  refine ⟨rfl, rfl, ?_⟩
  intro h
  have := congrArg TransactConfig.blocksBehind h
  simp [dexPlaceOrderTransactConfig, protonClientTransactConfig,
    placeOrderOnChainTransactConfig] at this

/-- Counterexample for C7: the order submitted by DexModule.placeOrder goes out
with blocksBehind 300 and expireSeconds 3000, not the claimed 3 and 30. -/
theorem dex_placeOrder_not_three_thirty :
    dexPlaceOrderTransactConfig ≠ ⟨3, 30⟩ := by
  intro h
  have := congrArg TransactConfig.blocksBehind h
  simp [dexPlaceOrderTransactConfig, protonClientTransactConfig] at this

/-! ## Correlation-id extraction after confirmation (C8) -/

/-- An action trace of a transaction record: the data payload may carry
ordinal_order_id, and inline_traces is a list of nested traces
(src/src/interfaces/ai.interface.ts lines 856-871). -/
inductive ActionTrace where
  | mk (ordId : Option String) (inl : List ActionTrace)

/-- data.ordinal_order_id of a trace. -/
def ActionTrace.ordinalOrderId : ActionTrace → Option String
  | .mk o _ => o

/-- inline_traces of a trace. -/
def ActionTrace.inlineTraces : ActionTrace → List ActionTrace
  | .mk _ ts => ts

/-- The optional-chaining extraction of line 857:
traces[0]?.inline_traces?.[0]?.data?.ordinal_order_id. -/
def extractOrdinalId (traces : List ActionTrace) : Option String :=
  traces[0]?.bind fun t => t.inlineTraces[0]?.bind fun it => it.ordinalOrderId

/-- Outcome of the confirmation-handling block of executeOperation. -/
inductive ExecuteOutcome where
  | success (ordinalId : Option String) (lifecycleLogged : Bool)
  | notConfirmed
deriving DecidableEq, Repr

/-- Confirmation handling of executeOperation (lines 846-875): throw when
the fetched transaction lacks processed; extract the correlation id from the
nested traces; when an id is present, fetch the lifecycle inside a try/catch
whose failure is only logged as a warning; then log the confirmed order.
Success is reported whenever processed is present. -/
def handleConfirmedOrder (txProcessed : Bool) (traces : List ActionTrace)
    (lifecycleLookup : String → Except String Unit) : ExecuteOutcome :=
  if !txProcessed then .notConfirmed
  else
    match extractOrdinalId traces with
    | some oid =>
      match lifecycleLookup oid with
      | .ok _ => .success (some oid) true
      | .error _ => .success (some oid) false
    | none => .success none false

/-- Claim C8: when the first action trace has no inline traces, or its first inline
trace carries no ordinal_order_id, the extraction yields none without
throwing, lifecycle tracking is skipped, and the pipeline still reports the
order placement as successful; moreover for every confirmed transaction and
every lifecycle-lookup behaviour the outcome is success. -/
theorem no_inline_traces_nonfatal (t : ActionTrace) (rest : List ActionTrace)
    (lookup : String → Except String Unit)
    (h : t.inlineTraces = [] ∨
      ∃ it l, t.inlineTraces = it :: l ∧ it.ordinalOrderId = none) :
    extractOrdinalId (t :: rest) = none ∧
    handleConfirmedOrder true (t :: rest) lookup = .success none false ∧
    (∀ traces2 lookup2, ∃ o b,
      handleConfirmedOrder true traces2 lookup2 = .success o b) := by
  have hext : extractOrdinalId (t :: rest) = none := by
    rcases h with h | ⟨it, l, hl, ho⟩
    · simp [extractOrdinalId, h]
    · simp [extractOrdinalId, hl, ho]
  refine ⟨hext, by simp [handleConfirmedOrder, hext], ?_⟩
  intro traces2 lookup2
  unfold handleConfirmedOrder
  cases hx : extractOrdinalId traces2 with
  | none => exact ⟨none, false, by simp⟩
  | some oid =>
    cases hl : lookup2 oid with
    | ok u => exact ⟨some oid, true, by simp [hl]⟩
    | error e => exact ⟨some oid, false, by simp [hl]⟩

/-- Witness for C8: a confirmed transaction whose single action trace has no
inline traces, with a lifecycle lookup that always fails. -/
theorem no_inline_traces_nonfatal_witness :
    extractOrdinalId [ActionTrace.mk none []] = none ∧
    handleConfirmedOrder true [ActionTrace.mk none []]
      (fun _ => Except.error "lookup failed") = .success none false :=
  ⟨(no_inline_traces_nonfatal (ActionTrace.mk none []) []
      (fun _ => Except.error "lookup failed") (Or.inl rfl)).1,
   (no_inline_traces_nonfatal (ActionTrace.mk none []) []
      (fun _ => Except.error "lookup failed") (Or.inl rfl)).2.1⟩

/-! ## Trend analysis (C9) -/

/-- Result of analyzeTrends and determineOverallTrend: the trend label and a
confidence score. -/
structure TrendResult where
  trend : String
  confidence : ℚ
deriving DecidableEq, Repr

/-- The bullish-signal count of determineOverallTrend
(src/src/modules/dex/index.ts lines 876-893): price-action trend upward,
volume trend increasing, positive order-book imbalance, and daily volatility
under 0.02; total signals is always 4. -/
def bullishSignalCount (priceActionTrend volumeTrend : String)
    (imbalance volatilityDaily : ℚ) : ℕ :=
  (if priceActionTrend = "upward" then 1 else 0) +
  (if volumeTrend = "increasing" then 1 else 0) +
  (if imbalance > 0 then 1 else 0) +
  (if volatilityDaily < 2 / 100 then 1 else 0)

/-- determineOverallTrend (lines 870-901): bullish ratio over four signals;
above 0.6 bullish, below 0.4 bearish, otherwise neutral; confidence is
the absolute distance of the ratio from 0.5 times 200. -/
def determineOverallTrend (priceActionTrend volumeTrend : String)
    (imbalance volatilityDaily : ℚ) : TrendResult :=
  let r : ℚ :=
    (bullishSignalCount priceActionTrend volumeTrend imbalance volatilityDaily : ℚ) / 4
  ⟨if r > 6 / 10 then "bullish" else if r < 4 / 10 then "bearish" else "neutral",
   |r - 1 / 2| * 200⟩

/-- analyzeTrends (lines 448-532).  The forced branch emits a random BUY or
SELL (randBuy models Math.random() > 0.5) with confidence 95; the non-forced
branch returns neutral with confidence 0 regardless of the market snapshot:
the body after the forced block is a bare return of neutral, and
determineOverallTrend has no caller anywhere in the module. -/
def analyzeTrends (forceAction randBuy : Bool)
    (_priceChange _volume _imbalance : ℚ) : TrendResult :=
  if forceAction then ⟨if randBuy then "bullish" else "bearish", 95⟩
  else ⟨"neutral", 0⟩

lemma bullishSignalCount_le_four (pa vt : String) (imb vol : ℚ) :
    bullishSignalCount pa vt imb vol ≤ 4 := by
  unfold bullishSignalCount
  split_ifs <;> norm_num

/-- Claim C9, amended: determineOverallTrend does implement the described vote:
it returns bullish exactly when at least 3 of the 4 signals are bullish,
bearish exactly when at most 1 is, and confidence |ratio - 0.5| * 200;
but the non-forced analyzeTrends path returns neutral with confidence 0 for
every snapshot and never consults this vote. -/
theorem determineOverallTrend_majority_vote (pa vt : String) (imb vol : ℚ) :
    ((determineOverallTrend pa vt imb vol).trend = "bullish" ↔
      3 ≤ bullishSignalCount pa vt imb vol) ∧
    ((determineOverallTrend pa vt imb vol).trend = "bearish" ↔
      bullishSignalCount pa vt imb vol ≤ 1) ∧
    (determineOverallTrend pa vt imb vol).confidence
      = |(bullishSignalCount pa vt imb vol : ℚ) / 4 - 1 / 2| * 200 ∧
    (∀ rb pc v i, analyzeTrends false rb pc v i = ⟨"neutral", 0⟩) := by
  have hs1 : ("neutral" : String) ≠ "bullish" := by decide
  have hs2 : ("neutral" : String) ≠ "bearish" := by decide
  have hs3 : ("bearish" : String) ≠ "bullish" := by decide
  have hs4 : ("bullish" : String) ≠ "bearish" := by decide
  have key : ∀ n : ℕ, n ≤ 4 →
      ((if ((n : ℚ) / 4) > 6 / 10 then "bullish"
        else if ((n : ℚ) / 4) < 4 / 10 then "bearish" else "neutral")
          = "bullish" ↔ 3 ≤ n) ∧
      ((if ((n : ℚ) / 4) > 6 / 10 then "bullish"
        else if ((n : ℚ) / 4) < 4 / 10 then "bearish" else "neutral")
          = "bearish" ↔ n ≤ 1) := by
    intro n hn
    interval_cases n <;>
      norm_num [hs1, hs2, hs3, hs4]
  obtain ⟨k1, k2⟩ := key (bullishSignalCount pa vt imb vol)
    (bullishSignalCount_le_four pa vt imb vol)
  exact ⟨k1, k2, rfl, fun rb pc v i => rfl⟩

/-- Witness for C9: with signals upward, increasing, positive imbalance and
volatility 0.05 the vote yields bullish (3 of 4 signals). -/
theorem determineOverallTrend_majority_vote_witness :
    (determineOverallTrend "upward" "increasing" (3 / 10) (5 / 100)).trend
      = "bullish" :=
  (determineOverallTrend_majority_vote "upward" "increasing"
      (3 / 10) (5 / 100)).1.mpr (by norm_num [bullishSignalCount])

/-- Counterexample for C9: for the claimed snapshot (price change +3 percent so
price action is upward, volume increasing, positive order-book imbalance)
the non-forced engine returns neutral with confidence 0, not bullish with
confidence above 50; and even the uncalled vote yields confidence exactly 50
for those three bullish signals when the volatility signal is not bullish. -/
theorem heuristic_trend_not_bullish :
    analyzeTrends false false 3 1000000 (3 / 10) = ⟨"neutral", 0⟩ ∧
    (analyzeTrends false false 3 1000000 (3 / 10)).trend ≠ "bullish" ∧
    ¬ (analyzeTrends false false 3 1000000 (3 / 10)).confidence > 50 ∧
    determineOverallTrend "upward" "increasing" (3 / 10) (5 / 100)
      = ⟨"bullish", 50⟩ := by
  have hcount : bullishSignalCount "upward" "increasing" (3 / 10) (5 / 100) = 3 := by
    norm_num [bullishSignalCount]
  refine ⟨rfl, by decide, by norm_num [analyzeTrends], ?_⟩
  unfold determineOverallTrend
  rw [hcount]
  have habs : |(3 : ℚ) / 4 - 1 / 2| = 1 / 4 := by
    rw [abs_of_nonneg] <;> norm_num
  have habs2 : |(1 : ℚ) / 4| = 1 / 4 := abs_of_nonneg (by norm_num)
  norm_num [habs, habs2]

end DexBot
